import Mathlib

/-!
Shallow embedding of the LSST alert-ingestion worker
(src/alert/lsst.rs) and proofs checking the natural-language
specification against it.

Modelling conventions:
  * Rust f32/f64 data fields are modelled as exact rationals; the
    transcendental magnitude computation is modelled over the reals.
  * i64/i32 identifiers are modelled as Int.
  * Fallible operations return Except; a Rust panic (an .unwrap() on a
    None, or a failed read_exact) is modelled as Option.none at the
    outermost level.
  * The document store is modelled as association lists keyed by the
    _id field; insert_one fails with a duplicate-key write error
    (driver code 11000) exactly when the key is already present, and
    the $addToSet update appends each new element not already present
    (deep equality), preserving order of the existing array.
  * External code that is not part of this repository (the flare
    crate's flux_to_mag, the avro payload decoder, the HTTP transport)
    and repository code outside src/ (utils::db helpers, the error
    enums of alert::base) is modelled from the spec; each such
    definition carries a doc comment saying so.
-/

/- ===================== error enums ===================== -/

/-- Modelled from the spec: the SchemaRegistryError enum of
src/alert/base.rs (declared outside src/); variants per section 7 of
the spec. -/
inductive SchemaRegistryError where
  | ConnectionError
  | ParsingError
  | InvalidSubject
  | InvalidVersion
  | InvalidSchema
  deriving DecidableEq, Repr

/-- Modelled from the spec: the AlertError enum of src/alert/base.rs
(declared outside src/); variants per section 7 of the spec.  Payloads
(driver error values, decode details) are dropped. -/
inductive AlertError where
  | MagicBytesError
  | DecodeError
  | SchemaRegistryError (e : SchemaRegistryError)
  | AlertExists
  | InsertAlertError
  | InsertCutoutError
  | FindObjectIdError
  | InsertAuxAlertError
  | UpdateAuxAlertError
  deriving DecidableEq, Repr

/- ===================== data model ===================== -/

/-- DiaSource (src/alert/lsst.rs lines 20-237).  Only the fields the
worker reads or writes are retained; the remaining ~55 optional scalar
pass-through attributes (trail/aperture photometry, pixel flags, ...)
are never touched by process_alert and are elided. -/
structure DiaSource where
  candid : Int
  visit : Int
  detector : Int
  object_id : Option Int
  ss_object_id : Option Int
  mjd : ℚ
  ra : ℚ
  dec : ℚ
  psf_flux : Option ℚ
  psf_flux_err : Option ℚ
  band : Option String
  magpsf : Option ℝ
  sigmapsf : Option ℝ
  science_flux : Option ℚ

/-- DiaForcedSource (src/alert/lsst.rs lines 435-469); all fields. -/
structure DiaForcedSource where
  dia_forced_source_id : Int
  object_id : Int
  ra : ℚ
  dec : ℚ
  visit : Int
  detector : Int
  psf_flux : Option ℚ
  psf_flux_err : Option ℚ
  mjd : ℚ
  band : Option String
  magpsf : Option ℝ
  sigmapsf : Option ℝ
  science_flux : Option ℚ

/-- DiaNondetectionLimit (src/alert/lsst.rs lines 424-433); all fields. -/
structure DiaNondetectionLimit where
  ccd_visit_id : Int
  mjd : ℚ
  band : String
  dia_noise : ℚ

/-- DiaObject (src/alert/lsst.rs lines 255-422).  The worker never
reads it; only the identifying/astrometric head is retained, the
per-band aggregate fields are elided. -/
structure DiaObject where
  object_id : Int
  ra : ℚ
  dec : ℚ

/-- LsstAlert envelope (src/alert/lsst.rs lines 487-511).  Cutouts are
byte buffers. -/
structure LsstAlert where
  candid : Int
  candidate : DiaSource
  prv_candidates : Option (List DiaSource)
  fp_hists : Option (List DiaForcedSource)
  prv_nondetections : Option (List DiaNondetectionLimit)
  dia_object : Option DiaObject
  cutout_difference : Option (List (Fin 256))
  cutout_science : Option (List (Fin 256))
  cutout_template : Option (List (Fin 256))

/- ===================== enrichment ===================== -/

/-- Modelled from the spec: flare::phot::flux_to_mag (the flare crate
is external to this repository).  Per section 4.D of the spec it
returns the pair
  (-2.5 * log10 flux + zeropoint, (2.5 / ln 10) * (flux_err / flux)). -/
noncomputable def flux_to_mag (flux flux_err zeropoint : ℝ) : ℝ × ℝ :=
  (-2.5 * Real.logb 10 flux + zeropoint, 2.5 / Real.log 10 * (flux_err / flux))

/-- DiaSource::add_mag_data (src/alert/lsst.rs lines 240-252).  The
source unwraps psf_flux and psf_flux_err (panics when absent, hence
the Option result), uses the constant 1000.0 in place of the
commented-out science_flux field read, and stores both results
unconditionally. -/
noncomputable def DiaSource.add_mag_data (s : DiaSource) : Option DiaSource :=
  match s.psf_flux, s.psf_flux_err with
  | some psf_flux, some psf_flux_err =>
      let science_flux : ℚ := 1000
      let m := flux_to_mag (((science_flux + psf_flux) * (1 / 1000000) : ℚ) : ℝ)
        ((psf_flux_err * (1 / 1000000) : ℚ) : ℝ) 8.9
      some { s with magpsf := some m.1, sigmapsf := some m.2 }
  | _, _ => none

/-- DiaForcedSource::add_mag_data (src/alert/lsst.rs lines 472-484);
same computation as the DiaSource one. -/
noncomputable def DiaForcedSource.add_mag_data (s : DiaForcedSource) : Option DiaForcedSource :=
  match s.psf_flux, s.psf_flux_err with
  | some psf_flux, some psf_flux_err =>
      let science_flux : ℚ := 1000
      let m := flux_to_mag (((science_flux + psf_flux) * (1 / 1000000) : ℚ) : ℝ)
        ((psf_flux_err * (1 / 1000000) : ℚ) : ℝ) 8.9
      some { s with magpsf := some m.1, sigmapsf := some m.2 }
  | _, _ => none

/- ===================== schema registry client ===================== -/

/-- Response of one HTTP round trip against the registry: transport
failure, a body that fails to deserialize to the expected shape, or a
well-formed value.  This models the reqwest send / json pair used by
get_subjects, get_versions and _get_schema_by_id. -/
inductive RegResp (α : Type) where
  | transport
  | badBody
  | ok (a : α)

/-- Body of GET /subjects/{subject}/versions/{version}: a JSON object
whose "schema" key, when present with a string value, is the schema
text (src/alert/lsst.rs lines 596-606). -/
structure SchemaRegistryBody where
  schemaField : Option String

/-- Modelled from the spec: the parsed avro schema produced by
Schema::parse_str (the apache_avro crate is external); kept as the
raw schema text. -/
structure AvroSchema where
  raw : String

/-- Environment of the registry: what each of the three endpoints
would answer.  The worker's reqwest client is deterministic within one
resolution in this model. -/
structure Registry where
  subjects : RegResp (List String)
  versions : String → RegResp (List Nat)
  schemaBody : String → Nat → RegResp SchemaRegistryBody

/-- LsstAlertWorker::get_subjects (src/alert/lsst.rs lines 525-543):
transport failure becomes ConnectionError, a non-conforming body
becomes ParsingError. -/
def get_subjects (reg : Registry) : Except SchemaRegistryError (List String) :=
  match reg.subjects with
  | .transport => .error .ConnectionError
  | .badBody => .error .ParsingError
  | .ok subjects => .ok subjects

/-- LsstAlertWorker::get_versions (src/alert/lsst.rs lines 545-572):
first checks that the subject exists, then lists its versions. -/
def get_versions (reg : Registry) (subject : String) :
    Except SchemaRegistryError (List Nat) :=
  match get_subjects reg with
  | .error e => .error e
  | .ok subjects =>
    if subject ∉ subjects then .error .InvalidSubject
    else
      match reg.versions subject with
      | .transport => .error .ConnectionError
      | .badBody => .error .ParsingError
      | .ok versions => .ok versions

/-- LsstAlertWorker::_get_schema_by_id (src/alert/lsst.rs lines
574-611): checks the version exists, fetches the schema body, takes
its "schema" string (ParsingError when missing), and parses it
(InvalidSchema on parse failure).  The parse function stands for
Schema::parse_str. -/
def _get_schema_by_id (reg : Registry) (parse : String → Option AvroSchema)
    (subject : String) (version : Nat) : Except SchemaRegistryError AvroSchema :=
  match get_versions reg subject with
  | .error e => .error e
  | .ok versions =>
    if version ∉ versions then .error .InvalidVersion
    else
      match reg.schemaBody subject version with
      | .transport => .error .ConnectionError
      | .badBody => .error .ParsingError
      | .ok body =>
        match body.schemaField with
        | none => .error .ParsingError
        | some schema_str =>
          match parse schema_str with
          | none => .error .InvalidSchema
          | some schema => .ok schema

/-- Cache of the worker: HashMap from the rendered "subject:version"
key to the parsed schema, modelled as an association list. -/
def SchemaCache := List (String × AvroSchema)

/-- Lookup in an association list by key (first match). -/
def lookupKey {κ α : Type} [DecidableEq κ] (k : κ) : List (κ × α) → Option α
  | [] => none
  | (k', v) :: rest => if k' = k then some v else lookupKey k rest

/-- LsstAlertWorker::get_schema (src/alert/lsst.rs lines 613-625):
return the cached schema when the key is present, otherwise fetch via
_get_schema_by_id and cache it.  The third component counts the
registry fetches performed by this call (0 on a cache hit, 1 on a
miss), to state the cache-hit property. -/
def get_schema (cache : SchemaCache) (reg : Registry)
    (parse : String → Option AvroSchema) (subject : String) (version : Nat) :
    Except SchemaRegistryError AvroSchema × SchemaCache × Nat :=
  let key := subject ++ ":" ++ toString version
  match lookupKey key cache with
  | some schema => (.ok schema, cache, 0)
  | none =>
    match _get_schema_by_id reg parse subject version with
    | .error e => (.error e, cache, 1)
    | .ok schema => (.ok schema, (key, schema) :: cache, 1)

/-- N successive calls of get_schema on the same (subject, version),
threading the cache and summing the per-call registry fetch counts. -/
def resolveN (reg : Registry) (parse : String → Option AvroSchema)
    (subject : String) (version : Nat) :
    Nat → SchemaCache → SchemaCache × Nat
  | 0, cache => (cache, 0)
  | n + 1, cache =>
    let r := get_schema cache reg parse subject version
    let rest := resolveN reg parse subject version n r.2.1
    (rest.1, r.2.2 + rest.2)

/- ===================== packet decoding ===================== -/

/-- Magic byte constant (src/alert/lsst.rs line 17). -/
def _MAGIC_BYTE : Fin 256 := 0

/-- u32::from_be_bytes on the four bytes after the magic byte
(src/alert/lsst.rs line 640). -/
def u32_from_be_bytes (b1 b2 b3 b4 : Fin 256) : Nat :=
  b1.val * 16777216 + b2.val * 65536 + b3.val * 256 + b4.val

/-- LsstAlertWorker::alert_from_avro_bytes (src/alert/lsst.rs lines
627-651).  The header read is read_exact(&mut [0; 5]).unwrap(): fewer
than 5 bytes panics (Option.none).  A leading byte other than 0 yields
MagicBytesError; otherwise the schema is resolved for subject
"alert-packet" at the big-endian id, registry errors are converted via
AlertError::from, and the remaining payload is decoded against the
schema by the external apache_avro decoder, modelled by the
decodePayload argument (its failure becomes DecodeError). -/
def alert_from_avro_bytes
    (decodePayload : AvroSchema → List (Fin 256) → Except Unit LsstAlert)
    (reg : Registry) (parse : String → Option AvroSchema)
    (cache : SchemaCache) (avro_bytes : List (Fin 256)) :
    Option (Except AlertError (LsstAlert × SchemaCache)) :=
  match avro_bytes with
  | b0 :: b1 :: b2 :: b3 :: b4 :: rest =>
    some (
      if b0 ≠ _MAGIC_BYTE then .error .MagicBytesError
      else
        match get_schema cache reg parse "alert-packet" (u32_from_be_bytes b1 b2 b3 b4) with
        | (.error e, cache', _) =>
          let _ := cache'
          .error (.SchemaRegistryError e)
        | (.ok schema, cache', _) =>
          match decodePayload schema rest with
          | .error _ => .error .DecodeError
          | .ok alert => .ok (alert, cache'))
  | _ => none

/- ===================== storage documents ===================== -/

/-- Modelled from the spec: the coordinates substructure attached by
utils::db::get_coordinates (repository code outside src/), per section
4.C of the spec:
  coordinates = \x7b radec_geojson:
    \x7b type: "Point", coordinates: [ra - 180.0, dec] \x7d \x7d. -/
structure RadecGeoJson where
  ptype : String
  coordinates : ℚ × ℚ

/-- Coordinates wrapper holding the radec_geojson value. -/
structure Coordinates where
  radec_geojson : RadecGeoJson

/-- Modelled from the spec: utils::db::get_coordinates (repository
code outside src/); builds the GeoJSON point with the longitude
shifted by -180 degrees. -/
def get_coordinates (ra dec : ℚ) : Coordinates :=
  { radec_geojson := { ptype := "Point", coordinates := (ra - 180, dec) } }

/-- Cross-match result document; the xmatch routine is black-box to
the spec, so its output is an opaque payload. -/
structure XMatchResult where
  out : List (String × ℚ)

/-- Primary-collection document (src/alert/lsst.rs lines 717-724).
The mongify projection of the candidate is modelled by carrying the
enriched record itself. -/
structure AlertDoc where
  _id : Int
  objectId : Int
  candidate : DiaSource
  coordinates : Coordinates
  created_at : ℚ
  updated_at : ℚ

/-- Cutout-collection document (src/alert/lsst.rs lines 748-753). -/
structure CutoutDoc where
  _id : Int
  cutoutScience : List (Fin 256)
  cutoutTemplate : List (Fin 256)
  cutoutDifference : List (Fin 256)

/-- Auxiliary-collection document (src/alert/lsst.rs lines 798-811). -/
structure AuxDoc where
  _id : Int
  prv_candidates : List DiaSource
  fp_hists : List DiaForcedSource
  cross_matches : XMatchResult
  created_at : ℚ
  updated_at : ℚ
  coordinates : Coordinates

/-- State of the three collections of the stream, each an association
list from _id to document. -/
structure DbState where
  alerts : List (Int × AlertDoc)
  cutouts : List (Int × CutoutDoc)
  aux : List (Int × AuxDoc)

/-- Empty store. -/
def DbState.empty : DbState := { alerts := [], cutouts := [], aux := [] }

/-- Write failure of insert_one, as reported by the driver: a write
error with a code, or any other failure kind. -/
inductive WriteFailure where
  | writeError (code : Int)
  | otherFailure

/-- Error mapping of the phase-1 insert (src/alert/lsst.rs lines
726-742): a write error with driver code 11000 becomes AlertExists,
any other failure becomes InsertAlertError. -/
def insertErrorToAlertError (e : WriteFailure) : AlertError :=
  match e with
  | .writeError code => if code = 11000 then .AlertExists else .InsertAlertError
  | .otherFailure => .InsertAlertError

/-- insert_one into a collection with a unique index on _id: fails
with the duplicate-key write error (code 11000) exactly when the key
is already present. -/
def insertDoc {α : Type} (l : List (Int × α)) (k : Int) (v : α) :
    Except WriteFailure (List (Int × α)) :=
  if (lookupKey k l).isSome then .error (.writeError 11000)
  else .ok ((k, v) :: l)

/-- Sequential enrichment of a list, panicking (none) on the first
element whose enrichment panics; models the map over prv_candidates /
fp_hist in process_alert (src/alert/lsst.rs lines 775-792). -/
def mapOption {α β : Type} (f : α → Option β) : List α → Option (List β)
  | [] => some []
  | x :: xs =>
    match f x with
    | none => none
    | some y =>
      match mapOption f xs with
      | none => none
      | some ys => some (y :: ys)

/-- MongoDB $addToSet with $each: appends each new element not already
present in the array (deep document equality), keeping the existing
array order. -/
noncomputable def addToSet {α : Type} (xs ys : List α) : List α :=
  ys.foldl (fun acc y => if Classical.propDecidable (y ∈ acc) |>.decide then acc else acc ++ [y]) xs

/-- Update-branch merge of the auxiliary document (src/alert/lsst.rs
lines 819-835): $addToSet on prv_candidates and fp_hists, $set on
updated_at. -/
noncomputable def mergeAuxDoc (now : ℚ) (prv : List DiaSource)
    (fp : List DiaForcedSource) (d : AuxDoc) : AuxDoc :=
  { d with
    prv_candidates := addToSet d.prv_candidates prv
    fp_hists := addToSet d.fp_hists fp
    updated_at := now }

/-- update_one on the auxiliary collection with the merge update. -/
noncomputable def updateAux (l : List (Int × AuxDoc)) (k : Int) (now : ℚ)
    (prv : List DiaSource) (fp : List DiaForcedSource) : List (Int × AuxDoc) :=
  l.map (fun p => if p.1 = k then (p.1, mergeAuxDoc now prv fp p.2) else p)

/- ===================== process_alert ===================== -/

/-- LsstAlertWorker::process_alert (src/alert/lsst.rs lines 698-839)
on an already-decoded alert.  Parameters: the external cross-match
routine (utils::spatial::xmatch, black-box), the Julian date captured
once at the start of the call, the alert, and the store state.  The
result is none when the source panics (an unwrap on an absent field);
otherwise the returned Except and the store state after the call.
Control flow in source order: take prv_candidates / fp_hists, unwrap
the candidate's object_id, enrich the candidate, insert the primary
document (duplicate key gives AlertExists and nothing is written),
unwrap the three cutouts and insert the cutout document, check whether
the auxiliary document exists, enrich prv_candidates and append the
current candidate document, enrich fp_hists, then create (with
cross_matches and the GeoJSON coordinates) or merge the auxiliary
document. -/
noncomputable def process_alert (xmatch : ℚ → ℚ → XMatchResult) (now : ℚ)
    (alert : LsstAlert) (s : DbState) :
    Option (Except AlertError Int × DbState) :=
  let prv_candidates := alert.prv_candidates
  let fp_hist := alert.fp_hists
  let candid := alert.candid
  match alert.candidate.object_id with
  | none => none
  | some object_id =>
  let ra := alert.candidate.ra
  let dec := alert.candidate.dec
  match alert.candidate.add_mag_data with
  | none => none
  | some candidate =>
  let candidate_doc := candidate
  let alert_doc : AlertDoc :=
    { _id := candid, objectId := object_id, candidate := candidate_doc,
      coordinates := get_coordinates ra dec, created_at := now, updated_at := now }
  match insertDoc s.alerts candid alert_doc with
  | .error e => some (.error (insertErrorToAlertError e), s)
  | .ok alerts' =>
  match alert.cutout_science, alert.cutout_template, alert.cutout_difference with
  | some cutout_science, some cutout_template, some cutout_difference =>
    let cutout_doc : CutoutDoc :=
      { _id := candid, cutoutScience := cutout_science,
        cutoutTemplate := cutout_template, cutoutDifference := cutout_difference }
    let s1 : DbState := { s with alerts := alerts' }
    (match insertDoc s1.cutouts candid cutout_doc with
    | .error _ => some (.error .InsertCutoutError, s1)
    | .ok cutouts' =>
    let s2 : DbState := { s1 with cutouts := cutouts' }
    let alert_aux_exists := (lookupKey object_id s2.aux).isSome
    match mapOption DiaSource.add_mag_data (prv_candidates.getD []) with
    | none => none
    | some prv_enriched =>
    let prv_candidates_doc := prv_enriched ++ [candidate_doc]
    match mapOption DiaForcedSource.add_mag_data (fp_hist.getD []) with
    | none => none
    | some fp_hist_doc =>
    if alert_aux_exists then
      let aux' := updateAux s2.aux object_id now prv_candidates_doc fp_hist_doc
      some (.ok candid, { s2 with aux := aux' })
    else
      let alert_aux_doc : AuxDoc :=
        { _id := object_id, prv_candidates := prv_candidates_doc,
          fp_hists := fp_hist_doc, cross_matches := xmatch ra dec,
          created_at := now, updated_at := now,
          coordinates :=
            { radec_geojson := { ptype := "Point", coordinates := (ra - 180, dec) } } }
      match insertDoc s2.aux object_id alert_aux_doc with
      | .error _ => some (.error .InsertAuxAlertError, s2)
      | .ok aux' => some (.ok candid, { s2 with aux := aux' }))
  | _, _, _ => none

/-- Full pipeline on raw bytes: decode (which may panic on a short
buffer) then process; registry errors and decode errors are returned
without touching the store. -/
noncomputable def process_alert_bytes
    (decodePayload : AvroSchema → List (Fin 256) → Except Unit LsstAlert)
    (reg : Registry) (parse : String → Option AvroSchema)
    (xmatch : ℚ → ℚ → XMatchResult) (now : ℚ)
    (cache : SchemaCache) (s : DbState) (avro_bytes : List (Fin 256)) :
    Option (Except AlertError Int × SchemaCache × DbState) :=
  match alert_from_avro_bytes decodePayload reg parse cache avro_bytes with
  | none => none
  | some (.error e) => some (.error e, cache, s)
  | some (.ok (alert, cache')) =>
    match process_alert xmatch now alert s with
    | none => none
    | some (r, s') => some (r, cache', s')

/- ===================== concrete sample inputs ===================== -/

/-- Sample cross-match routine recording its arguments, so theorems can
observe the call site. -/
def xm0 : ℚ → ℚ → XMatchResult := fun ra dec => { out := [("ra", ra), ("dec", dec)] }

/-- Sample Julian date captured at the start of a call. -/
def now0 : ℚ := 2460000

/-- Sample current candidate (candid 42, object 7). -/
def sampleCand : DiaSource :=
  { candid := 42, visit := 1, detector := 2, object_id := some 7,
    ss_object_id := none, mjd := 60000, ra := 10, dec := -5,
    psf_flux := some 1, psf_flux_err := some 1, band := some "r",
    magpsf := none, sigmapsf := none, science_flux := none }

/-- Sample previous detection (candid 41, same object). -/
def samplePrv : DiaSource := { sampleCand with candid := 41, psf_flux := some 2 }

/-- Sample forced-photometry sample. -/
def sampleFp : DiaForcedSource :=
  { dia_forced_source_id := 9, object_id := 7, ra := 10, dec := -5,
    visit := 1, detector := 2, psf_flux := some 3, psf_flux_err := some 1,
    mjd := 60000, band := some "r", magpsf := none, sigmapsf := none,
    science_flux := none }

/-- Sample decoded alert with one previous detection and one forced
source. -/
def sampleAlert : LsstAlert :=
  { candid := 42, candidate := sampleCand, prv_candidates := some [samplePrv],
    fp_hists := some [sampleFp], prv_nondetections := none, dia_object := none,
    cutout_difference := some [1], cutout_science := some [2],
    cutout_template := some [3] }

/-- Sample detection whose effective flux (1000 + psf_flux) * 1e-6 is
negative. -/
def negFluxCand : DiaSource :=
  { sampleCand with psf_flux := some (-2000), psf_flux_err := some 1 }

/-- State of the store after processing sampleAlert on an empty store. -/
noncomputable def db1 : DbState :=
  (process_alert xm0 now0 sampleAlert DbState.empty).elim DbState.empty Prod.snd

/-- Enriched sample candidate, as computed by the worker. -/
noncomputable def enrichedCand : DiaSource := sampleCand.add_mag_data.getD sampleCand

/-- Enriched previous detections of sampleAlert. -/
noncomputable def enrichedPrv : List DiaSource :=
  (mapOption DiaSource.add_mag_data [samplePrv]).getD []

/-- Enriched forced sources of sampleAlert. -/
noncomputable def enrichedFp : List DiaForcedSource :=
  (mapOption DiaForcedSource.add_mag_data [sampleFp]).getD []

/-- Sample avro payload decoder that always fails (the payload format
is external). -/
def dp0 : AvroSchema → List (Fin 256) → Except Unit LsstAlert := fun _ _ => .error ()

/-- Sample registry knowing subject "alert-packet" with version 1. -/
def reg0 : Registry :=
  { subjects := .ok ["alert-packet"],
    versions := fun _ => .ok [1],
    schemaBody := fun _ _ => .ok { schemaField := some "s" } }

/-- Sample schema parse function that always succeeds. -/
def parse0 : String → Option AvroSchema := fun t => some { raw := t }

/-- Sample schema parse function that always fails. -/
def parseNone : String → Option AvroSchema := fun _ => none

/-- Registry whose subjects endpoint fails at transport level. -/
def regT : Registry :=
  { subjects := .transport, versions := fun _ => .transport,
    schemaBody := fun _ _ => .transport }

/-- Registry whose subjects endpoint returns a non-conforming body. -/
def regB : Registry := { regT with subjects := .badBody }

/-- Registry knowing subject "s", versions endpoint transport failure. -/
def reg4 : Registry := { regT with subjects := .ok ["s"] }

/-- Registry knowing subject "s", versions endpoint bad body. -/
def reg5 : Registry := { reg4 with versions := fun _ => .badBody }

/-- Registry knowing subject "s" with no versions. -/
def reg6 : Registry := { reg4 with versions := fun _ => .ok [] }

/-- Registry knowing subject "s" version 1, body endpoint transport
failure. -/
def reg7 : Registry := { reg4 with versions := fun _ => .ok [1] }

/-- Registry knowing subject "s" version 1, body endpoint bad body. -/
def reg8 : Registry := { reg7 with schemaBody := fun _ _ => .badBody }

/-- Registry knowing subject "s" version 1, body without a "schema"
string. -/
def reg9 : Registry :=
  { reg7 with schemaBody := fun _ _ => .ok { schemaField := none } }

/-- Registry knowing subject "s" version 1 with schema text "x". -/
def reg10 : Registry :=
  { reg7 with schemaBody := fun _ _ => .ok { schemaField := some "x" } }

/-- Alert whose candidate has no associated object id. -/
def alertNoOid : LsstAlert :=
  { sampleAlert with candidate := { sampleCand with object_id := none } }

/-- Alert whose candidate has no psf flux. -/
def alertNoPsf : LsstAlert :=
  { sampleAlert with candidate := { sampleCand with psf_flux := none } }

/-- Alert whose candidate has no psf flux uncertainty. -/
def alertNoPsfErr : LsstAlert :=
  { sampleAlert with candidate := { sampleCand with psf_flux_err := none } }

/-- Alert without a science cutout. -/
def alertNoCutSci : LsstAlert := { sampleAlert with cutout_science := none }

/-- Alert without a template cutout. -/
def alertNoCutTmp : LsstAlert := { sampleAlert with cutout_template := none }

/-- Alert without a difference cutout. -/
def alertNoCutDif : LsstAlert := { sampleAlert with cutout_difference := none }

/-- Previous detection without a psf flux. -/
def prvNoPsf : DiaSource := { samplePrv with psf_flux := none }

/-- Alert whose previous detection has no psf flux. -/
def alertPrvNoPsf : LsstAlert :=
  { sampleAlert with prv_candidates := some [prvNoPsf] }

/-- Forced source without a psf flux. -/
def fpNoPsf : DiaForcedSource := { sampleFp with psf_flux := none }

/-- Alert whose forced source has no psf flux. -/
def alertFpNoPsf : LsstAlert := { sampleAlert with fp_hists := some [fpNoPsf] }

/-- Previous detection without a psf flux uncertainty. -/
def prvNoPsfErr : DiaSource := { samplePrv with psf_flux_err := none }

/-- Alert whose previous detection has no psf flux uncertainty. -/
def alertPrvNoPsfErr : LsstAlert :=
  { sampleAlert with prv_candidates := some [prvNoPsfErr] }

/-- Forced source without a psf flux uncertainty. -/
def fpNoPsfErr : DiaForcedSource := { sampleFp with psf_flux_err := none }

/-- Alert whose forced source has no psf flux uncertainty. -/
def alertFpNoPsfErr : LsstAlert :=
  { sampleAlert with fp_hists := some [fpNoPsfErr] }

/- ===================== helper lemmas ===================== -/

@[simp]
theorem lookupKey_nil {κ α : Type} [DecidableEq κ] (k : κ) :
    lookupKey k ([] : List (κ × α)) = none := rfl

@[simp]
theorem lookupKey_cons {κ α : Type} [DecidableEq κ] (k k' : κ) (v : α)
    (l : List (κ × α)) :
    lookupKey k ((k', v) :: l) = if k' = k then some v else lookupKey k l := rfl

theorem mapOption_eq_none {α β : Type} {f : α → Option β} {l : List α} {x : α}
    (hx : x ∈ l) (hfx : f x = none) : mapOption f l = none := by
  induction l with
  | nil => cases hx
  | cons a as ih =>
    rcases List.mem_cons.mp hx with h | h
    · subst h
      simp [mapOption, hfx]
    · have hrest := ih h
      cases hfa : f a <;> simp [mapOption, hfa, hrest]

/-- Success of process_alert determines phase 1: the candidate's
object_id and enrichment succeeded, the returned value is the candid,
and the primary collection gained exactly the phase-1 document (built
with the single now timestamp). -/
theorem process_alert_ok_alerts
    {xmatch : ℚ → ℚ → XMatchResult} {now : ℚ} {a : LsstAlert} {s : DbState}
    {r : Int} {s₁ : DbState}
    (h : process_alert xmatch now a s = some (.ok r, s₁)) :
    ∃ oid cand,
      a.candidate.object_id = some oid ∧
      a.candidate.add_mag_data = some cand ∧
      r = a.candid ∧
      s₁.alerts = (a.candid,
        { _id := a.candid, objectId := oid, candidate := cand,
          coordinates := get_coordinates a.candidate.ra a.candidate.dec,
          created_at := now, updated_at := now }) :: s.alerts := by
  rcases hoid : a.candidate.object_id with _ | oid
  · simp [process_alert, hoid] at h
  rcases hcand : a.candidate.add_mag_data with _ | cand
  · simp [process_alert, hoid, hcand] at h
  refine ⟨oid, cand, rfl, rfl, ?_⟩
  simp only [process_alert, hoid, hcand] at h
  split at h
  · simp at h
  rename_i alerts' heq
  have halerts : alerts' = (a.candid,
      { _id := a.candid, objectId := oid, candidate := cand,
        coordinates := get_coordinates a.candidate.ra a.candidate.dec,
        created_at := now, updated_at := now }) :: s.alerts := by
    unfold insertDoc at heq
    split_ifs at heq with hdup
    all_goals exact (Except.ok.inj heq).symm
  split at h
  case _ =>
    split at h
    · simp at h
    split at h
    · simp at h
    split at h
    · simp at h
    split at h
    · simp only [Option.some.injEq, Prod.mk.injEq, Except.ok.injEq] at h
      refine ⟨h.1.symm, ?_⟩
      rw [← h.2]
      exact halerts
    · split at h
      · simp at h
      · simp only [Option.some.injEq, Prod.mk.injEq, Except.ok.injEq] at h
        refine ⟨h.1.symm, ?_⟩
        rw [← h.2]
        exact halerts
  case _ => simp at h

/- ===================== C1 ===================== -/

/-- C1 (counterexample): the claim says that for non-positive effective
flux both derived fields are absent from the record.  On negFluxCand
the effective flux (1000 + (-2000)) * 1e-6 is negative, yet
add_mag_data stores both magpsf and sigmapsf as present values: the
source (src/alert/lsst.rs lines 250-251) sets them unconditionally. -/
theorem c1_counterexample :
    ((1000 + (-2000 : ℚ)) * (1 / 1000000) ≤ 0) ∧
    negFluxCand.psf_flux = some (-2000) ∧
    (DiaSource.add_mag_data negFluxCand).map
      (fun s => (s.magpsf.isSome, s.sigmapsf.isSome)) = some (true, true) := by
  refine ⟨by norm_num, rfl, rfl⟩

/-- C1 (amended): for every detection and forced-source with psf_flux
and psf_flux_err present, add_mag_data stores
  magpsf = -2.5 * log10 flux + 8.9 and
  sigmapsf = (2.5 / ln 10) * (flux_err / flux)
with flux = (1000.0 + psf_flux) * 1e-6 (constant sentinel science flux;
the record's science_flux field is ignored) and
flux_err = psf_flux_err * 1e-6; both fields are always present in the
enriched record, whatever the sign of the effective flux. -/
theorem c1_magnitudes_always_set :
    (∀ (s : DiaSource) (pf pfe : ℚ), s.psf_flux = some pf →
      s.psf_flux_err = some pfe →
      s.add_mag_data = some { s with
        magpsf := some
          (-2.5 * Real.logb 10 (((1000 + pf) * (1 / 1000000) : ℚ) : ℝ) + 8.9),
        sigmapsf := some (2.5 / Real.log 10 *
          (((pfe * (1 / 1000000) : ℚ) : ℝ) /
            (((1000 + pf) * (1 / 1000000) : ℚ) : ℝ))) }) ∧
    (∀ (s : DiaForcedSource) (pf pfe : ℚ), s.psf_flux = some pf →
      s.psf_flux_err = some pfe →
      s.add_mag_data = some { s with
        magpsf := some
          (-2.5 * Real.logb 10 (((1000 + pf) * (1 / 1000000) : ℚ) : ℝ) + 8.9),
        sigmapsf := some (2.5 / Real.log 10 *
          (((pfe * (1 / 1000000) : ℚ) : ℝ) /
            (((1000 + pf) * (1 / 1000000) : ℚ) : ℝ))) }) := by
  constructor
  · intro s pf pfe h1 h2
    simp [DiaSource.add_mag_data, h1, h2, flux_to_mag]
  · intro s pf pfe h1 h2
    simp [DiaForcedSource.add_mag_data, h1, h2, flux_to_mag]

/- ===================== C2 ===================== -/

/-- C2 (confirmed): after a first successful process_alert on an
alert, running process_alert again on the same decoded alert (the
decode of the same bytes is deterministic) returns AlertExists and
returns the store state unchanged — so the whole document set,
including the lengths of the auxiliary prv_candidates and fp_hists
arrays, is identical to the state after the first call.  The source
returns at the duplicate-key failure of the phase-1 insert
(src/alert/lsst.rs lines 726-742) before any further write. -/
theorem c2_replay_idempotent :
    ∀ (xmatch xmatch' : ℚ → ℚ → XMatchResult) (now now' : ℚ) (a : LsstAlert)
      (s : DbState) (r : Int) (s₁ : DbState),
      process_alert xmatch now a s = some (.ok r, s₁) →
      process_alert xmatch' now' a s₁ = some (.error .AlertExists, s₁) := by
  intro xmatch xmatch' now now' a s r s₁ h
  obtain ⟨oid, cand, hoid, hcand, _, halerts⟩ := process_alert_ok_alerts h
  have hdup : (lookupKey a.candid s₁.alerts).isSome = true := by
    rw [halerts]
    simp
  simp [process_alert, hoid, hcand, insertDoc, hdup, insertErrorToAlertError]

/-- C2 (witness): processing the concrete sample alert twice from the
empty store. -/
theorem c2_witness :
    process_alert xm0 now0 sampleAlert DbState.empty = some (.ok 42, db1) ∧
    process_alert xm0 now0 sampleAlert db1 = some (.error .AlertExists, db1) :=
  ⟨rfl, c2_replay_idempotent xm0 xm0 now0 now0 sampleAlert DbState.empty 42 db1 rfl⟩

/- ===================== C3 ===================== -/

/-- C3 (confirmed): phase 1 of process_alert inserts into the primary
collection the document with _id = candid, objectId, the enriched
candidate, the coordinates substructure, and created_at = updated_at =
now (the Julian date captured once at the start of the call); on
overall success the returned value is the candid.  A duplicate key
(driver write error code 11000) yields AlertExists with the store
untouched; the error mapping sends a write error with code 11000 to
AlertExists and every other write failure to InsertAlertError. -/
theorem c3_phase1_contract :
    (∀ (xmatch : ℚ → ℚ → XMatchResult) (now : ℚ) (a : LsstAlert) (s : DbState)
       (r : Int) (s₁ : DbState) (oid : Int) (cand : DiaSource),
       a.candidate.object_id = some oid →
       a.candidate.add_mag_data = some cand →
       process_alert xmatch now a s = some (.ok r, s₁) →
       r = a.candid ∧
       lookupKey a.candid s₁.alerts = some
         { _id := a.candid, objectId := oid, candidate := cand,
           coordinates := get_coordinates a.candidate.ra a.candidate.dec,
           created_at := now, updated_at := now }) ∧
    (∀ (xmatch : ℚ → ℚ → XMatchResult) (now : ℚ) (a : LsstAlert) (s : DbState)
       (oid : Int) (cand : DiaSource),
       a.candidate.object_id = some oid →
       a.candidate.add_mag_data = some cand →
       (lookupKey a.candid s.alerts).isSome = true →
       process_alert xmatch now a s = some (.error .AlertExists, s)) ∧
    insertErrorToAlertError (.writeError 11000) = .AlertExists ∧
    (∀ code : Int, code ≠ 11000 →
       insertErrorToAlertError (.writeError code) = .InsertAlertError) ∧
    insertErrorToAlertError .otherFailure = .InsertAlertError := by
  refine ⟨?_, ?_, rfl, ?_, rfl⟩
  · intro xmatch now a s r s₁ oid cand hoid hcand h
    obtain ⟨oid', cand', hoid', hcand', hr, halerts⟩ := process_alert_ok_alerts h
    rw [hoid'] at hoid
    rw [hcand'] at hcand
    obtain rfl : oid' = oid := Option.some.inj hoid
    obtain rfl : cand' = cand := Option.some.inj hcand
    refine ⟨hr, ?_⟩
    rw [halerts]
    simp
  · intro xmatch now a s oid cand hoid hcand hdup
    simp [process_alert, hoid, hcand, insertDoc, hdup, insertErrorToAlertError]
  · intro code hc
    simp [insertErrorToAlertError, hc]

/-- C3 (witness): the contract applied to the concrete sample run and
to a non-11000 write error code. -/
theorem c3_witness :
    (42 = sampleAlert.candid ∧
      lookupKey sampleAlert.candid db1.alerts = some
        { _id := sampleAlert.candid, objectId := 7, candidate := enrichedCand,
          coordinates := get_coordinates sampleAlert.candidate.ra
            sampleAlert.candidate.dec,
          created_at := now0, updated_at := now0 }) ∧
    insertErrorToAlertError (.writeError 11001) = .InsertAlertError :=
  ⟨c3_phase1_contract.1 xm0 now0 sampleAlert DbState.empty 42 db1 7 enrichedCand
      rfl rfl rfl,
    c3_phase1_contract.2.2.2.1 11001 (by decide)⟩

/- ===================== C4 ===================== -/

/-- Insert into a collection whose key is free appends the document at
the head. -/
theorem insertDoc_lookup_none {α : Type} {l : List (Int × α)} {k : Int}
    (h : lookupKey k l = none) (v : α) :
    insertDoc l k v = .ok ((k, v) :: l) := by
  simp [insertDoc, h]

/-- C4 (counterexample): the claim says the created auxiliary
document's prv_candidates array consists of the enriched current
candidate FIRST, followed by the previous detections.  Running
process_alert on sampleAlert (current candid 42, one previous
detection candid 41) over the empty store stores the array whose
candid projection is [41, 42]: the source (src/alert/lsst.rs line 783)
pushes the current candidate at the END, after the previous
detections, so the claimed order [42, 41] is wrong. -/
theorem c4_counterexample :
    (process_alert xm0 now0 sampleAlert DbState.empty).map
        (fun p => (lookupKey 7 p.2.aux).map
          (fun d => d.prv_candidates.map DiaSource.candid)) =
      some (some [41, 42]) ∧
    sampleAlert.candidate.candid = 42 ∧ samplePrv.candid = 41 ∧
    (41 : Int) ≠ 42 :=
  ⟨rfl, rfl, rfl, by decide⟩

/-- C4 (amended): in phase 3, when no auxiliary document with _id
equal to the alert's objectId exists, process_alert inserts a document
whose prv_candidates array consists of all previous detections from
the packet followed by the enriched current candidate LAST, whose
fp_hists array holds all forced-source samples, whose cross_matches
field is the result of xmatch(ra, dec), whose
coordinates.radec_geojson.coordinates equals (ra - 180.0, dec), and
whose created_at and updated_at are the timestamp of the call (the
create-branch insert maps a write failure to InsertAuxAlertError; in
this sequential model the preceding existence check guarantees the
insert succeeds). -/
theorem c4_create_branch :
    ∀ (xmatch : ℚ → ℚ → XMatchResult) (now : ℚ) (a : LsstAlert) (s : DbState)
      (r : Int) (s₁ : DbState) (oid : Int) (cand : DiaSource)
      (prv : List DiaSource) (fp : List DiaForcedSource),
      a.candidate.object_id = some oid →
      a.candidate.add_mag_data = some cand →
      mapOption DiaSource.add_mag_data (a.prv_candidates.getD []) = some prv →
      mapOption DiaForcedSource.add_mag_data (a.fp_hists.getD []) = some fp →
      lookupKey oid s.aux = none →
      process_alert xmatch now a s = some (.ok r, s₁) →
      lookupKey oid s₁.aux = some
        { _id := oid, prv_candidates := prv ++ [cand], fp_hists := fp,
          cross_matches := xmatch a.candidate.ra a.candidate.dec,
          created_at := now, updated_at := now,
          coordinates := { radec_geojson :=
            { ptype := "Point",
              coordinates := (a.candidate.ra - 180, a.candidate.dec) } } } := by
  intro xmatch now a s r s₁ oid cand prv fp hoid hcand hprv hfp haux h
  simp only [process_alert, hoid, hcand, hprv, hfp, haux, Option.isSome_none,
    Bool.false_eq_true, if_false, insertDoc_lookup_none haux] at h
  split at h
  · simp at h
  split at h
  case _ =>
    split at h
    · simp at h
    · simp only [Option.some.injEq, Prod.mk.injEq, Except.ok.injEq] at h
      rw [← h.2]
      simp
  case _ => simp at h

/-- C4 (witness): the amended create-branch theorem applied to the
concrete sample run. -/
theorem c4_witness :
    lookupKey 7 db1.aux = some
      { _id := 7, prv_candidates := enrichedPrv ++ [enrichedCand],
        fp_hists := enrichedFp,
        cross_matches := xm0 sampleAlert.candidate.ra sampleAlert.candidate.dec,
        created_at := now0, updated_at := now0,
        coordinates := { radec_geojson :=
          { ptype := "Point",
            coordinates := (sampleAlert.candidate.ra - 180,
              sampleAlert.candidate.dec) } } } :=
  c4_create_branch xm0 now0 sampleAlert DbState.empty 42 db1 7 enrichedCand
    enrichedPrv enrichedFp rfl rfl rfl rfl rfl rfl

/-- C1 (witness): the amended theorem applied to the concrete sample
detection and forced source. -/
theorem c1_witness :
    sampleCand.psf_flux = some 1 ∧ sampleCand.psf_flux_err = some 1 ∧
    sampleCand.add_mag_data = some { sampleCand with
      magpsf := some
        (-2.5 * Real.logb 10 (((1000 + (1 : ℚ)) * (1 / 1000000) : ℚ) : ℝ) + 8.9),
      sigmapsf := some (2.5 / Real.log 10 *
        ((((1 : ℚ) * (1 / 1000000) : ℚ) : ℝ) /
          (((1000 + (1 : ℚ)) * (1 / 1000000) : ℚ) : ℝ))) } ∧
    sampleFp.add_mag_data = some { sampleFp with
      magpsf := some
        (-2.5 * Real.logb 10 (((1000 + (3 : ℚ)) * (1 / 1000000) : ℚ) : ℝ) + 8.9),
      sigmapsf := some (2.5 / Real.log 10 *
        ((((1 : ℚ) * (1 / 1000000) : ℚ) : ℝ) /
          (((1000 + (3 : ℚ)) * (1 / 1000000) : ℚ) : ℝ))) } :=
  ⟨rfl, rfl, c1_magnitudes_always_set.1 sampleCand 1 1 rfl rfl,
    c1_magnitudes_always_set.2 sampleFp 3 1 rfl rfl⟩

/- ===================== C5 ===================== -/

/-- C5 (confirmed): on a buffer of at least 5 bytes, a leading byte
different from 0 makes decoding fail with MagicBytesError; with a
leading 0 byte, bytes 1 through 4 are read as a big-endian unsigned
32-bit schema id and the schema is resolved through the cache/registry
layer with subject "alert-packet" and that id as the version, after
which the payload is decoded against the resolved schema. -/
theorem c5_header_contract :
    (∀ (dp : AvroSchema → List (Fin 256) → Except Unit LsstAlert)
       (reg : Registry) (parse : String → Option AvroSchema)
       (cache : SchemaCache) (b0 b1 b2 b3 b4 : Fin 256) (rest : List (Fin 256)),
       b0 ≠ 0 →
       alert_from_avro_bytes dp reg parse cache (b0 :: b1 :: b2 :: b3 :: b4 :: rest) =
         some (.error .MagicBytesError)) ∧
    (∀ (dp : AvroSchema → List (Fin 256) → Except Unit LsstAlert)
       (reg : Registry) (parse : String → Option AvroSchema)
       (cache : SchemaCache) (b1 b2 b3 b4 : Fin 256) (rest : List (Fin 256)),
       alert_from_avro_bytes dp reg parse cache (0 :: b1 :: b2 :: b3 :: b4 :: rest) =
         some (
           match get_schema cache reg parse "alert-packet"
               (b1.val * 16777216 + b2.val * 65536 + b3.val * 256 + b4.val) with
           | (.error e, _, _) => .error (.SchemaRegistryError e)
           | (.ok schema, cache', _) =>
             match dp schema rest with
             | .error _ => .error .DecodeError
             | .ok alert => .ok (alert, cache'))) := by
  constructor
  · intro dp reg parse cache b0 b1 b2 b3 b4 rest h
    simp [alert_from_avro_bytes, _MAGIC_BYTE, h]
  · intro dp reg parse cache b1 b2 b3 b4 rest
    simp only [alert_from_avro_bytes, _MAGIC_BYTE, u32_from_be_bytes, ne_eq,
      not_true_eq_false, if_false]

/-- C5 (witness): the header contract on concrete buffers (bad magic
byte 1, then good magic with schema id 1). -/
theorem c5_witness :
    alert_from_avro_bytes dp0 reg0 parse0 [] [1, 0, 0, 0, 1] =
      some (.error .MagicBytesError) ∧
    alert_from_avro_bytes dp0 reg0 parse0 [] [0, 0, 0, 0, 1] =
      some (
        match get_schema [] reg0 parse0 "alert-packet"
            ((0 : Fin 256).val * 16777216 + (0 : Fin 256).val * 65536 +
              (0 : Fin 256).val * 256 + (1 : Fin 256).val) with
        | (.error e, _, _) => .error (.SchemaRegistryError e)
        | (.ok schema, cache', _) =>
          match dp0 schema [] with
          | .error _ => .error .DecodeError
          | .ok alert => .ok (alert, cache')) :=
  ⟨c5_header_contract.1 dp0 reg0 parse0 [] 1 0 0 0 1 [] (by decide),
    c5_header_contract.2 dp0 reg0 parse0 [] 0 0 0 1 []⟩

/- ===================== C6 ===================== -/

/-- C6 (confirmed): the schema cache memoizes by the rendered
(subject, version) key: a hit returns the cached schema with no
registry fetch and an unchanged cache; after any successful
resolution, every later resolution of the same pair — against any
registry state — is a hit; and N+1 successive resolutions of the same
pair starting from a cache without the key, the first successful,
perform exactly one registry fetch in total. -/
theorem c6_cache_memoization :
    (∀ (cache : SchemaCache) (reg : Registry)
       (parse : String → Option AvroSchema) (subject : String) (version : Nat)
       (schema : AvroSchema),
       lookupKey (subject ++ ":" ++ toString version) cache = some schema →
       get_schema cache reg parse subject version = (.ok schema, cache, 0)) ∧
    (∀ (cache : SchemaCache) (reg : Registry)
       (parse : String → Option AvroSchema) (subject : String) (version : Nat)
       (schema : AvroSchema) (cache' : SchemaCache) (n : Nat),
       get_schema cache reg parse subject version = (.ok schema, cache', n) →
       ∀ (reg' : Registry) (parse' : String → Option AvroSchema),
         get_schema cache' reg' parse' subject version = (.ok schema, cache', 0)) ∧
    (∀ (cache : SchemaCache) (reg : Registry)
       (parse : String → Option AvroSchema) (subject : String) (version : Nat)
       (schema : AvroSchema),
       lookupKey (subject ++ ":" ++ toString version) cache = none →
       (get_schema cache reg parse subject version).1 = .ok schema →
       ∀ n : Nat, (resolveN reg parse subject version (n + 1) cache).2 = 1) := by
  refine ⟨?_, ?_, ?_⟩
  · intro cache reg parse subject version schema h
    simp [get_schema, h]
  · intro cache reg parse subject version schema cache' n h reg' parse'
    rcases hl : lookupKey (subject ++ ":" ++ toString version) cache with _ | sch
    · simp only [get_schema, hl] at h
      rcases hg : _get_schema_by_id reg parse subject version with e | s' <;>
        simp only [hg] at h
      · simp at h
      · injection h with h1 h23
        injection h23 with h2 h3
        injection h1 with h4
        subst h4
        rw [← h2]
        simp [get_schema, lookupKey]
    · simp only [get_schema, hl] at h
      injection h with h1 h23
      injection h23 with h2 h3
      injection h1 with h4
      subst h4
      rw [← h2]
      simp [get_schema, hl]
  · intro cache reg parse subject version schema hl hok n
    have h1 : get_schema cache reg parse subject version =
        (.ok schema, (subject ++ ":" ++ toString version, schema) :: cache, 1) := by
      simp only [get_schema, hl] at hok ⊢
      rcases hg : _get_schema_by_id reg parse subject version with e | s' <;>
        simp only [hg] at hok ⊢
      · simp at hok
      · have hs : s' = schema := by simpa using hok
        subst hs
        rfl
    have hhit : ∀ (m : Nat) (c : SchemaCache),
        lookupKey (subject ++ ":" ++ toString version) c = some schema →
        resolveN reg parse subject version m c = (c, 0) := by
      intro m
      induction m with
      | zero => intro c hc; rfl
      | succ k ih =>
        intro c hc
        simp [resolveN, get_schema, hc, ih c hc]
    simp [resolveN, h1,
      hhit n ((subject ++ ":" ++ toString version, schema) :: cache)
        (by simp [lookupKey])]

/-- C6 (witness): a cache hit on a concrete cached pair, and three
successive resolutions of ("alert-packet", 1) from the empty cache
against reg0 performing exactly one registry fetch. -/
theorem c6_witness :
    get_schema [("alert-packet:1", { raw := "s" })] reg0 parse0 "alert-packet" 1 =
      (.ok { raw := "s" }, [("alert-packet:1", { raw := "s" })], 0) ∧
    (resolveN reg0 parse0 "alert-packet" 1 3 []).2 = 1 :=
  ⟨c6_cache_memoization.1 [("alert-packet:1", { raw := "s" })] reg0 parse0
      "alert-packet" 1 { raw := "s" } rfl,
    c6_cache_memoization.2.2 [] reg0 parse0 "alert-packet" 1 { raw := "s" }
      rfl rfl 2⟩

/- ===================== C7 ===================== -/

/-- C7 (confirmed): on a cache miss, schema resolution validates in
order: an absent subject fails with InvalidSubject; otherwise an
absent version fails with InvalidVersion; otherwise a fetched schema
text that fails to parse fails with InvalidSchema; a transport failure
at any of the three endpoints yields ConnectionError and a
non-conforming response body (including a body without a "schema"
string) yields ParsingError; with everything conforming the parsed
schema is returned. -/
theorem c7_registry_validation :
    (∀ (reg : Registry) (parse : String → Option AvroSchema) (subject : String)
       (version : Nat), reg.subjects = .transport →
       _get_schema_by_id reg parse subject version = .error .ConnectionError) ∧
    (∀ (reg : Registry) (parse : String → Option AvroSchema) (subject : String)
       (version : Nat), reg.subjects = .badBody →
       _get_schema_by_id reg parse subject version = .error .ParsingError) ∧
    (∀ (reg : Registry) (parse : String → Option AvroSchema) (subject : String)
       (version : Nat) (ss : List String), reg.subjects = .ok ss → subject ∉ ss →
       _get_schema_by_id reg parse subject version = .error .InvalidSubject) ∧
    (∀ (reg : Registry) (parse : String → Option AvroSchema) (subject : String)
       (version : Nat) (ss : List String), reg.subjects = .ok ss → subject ∈ ss →
       reg.versions subject = .transport →
       _get_schema_by_id reg parse subject version = .error .ConnectionError) ∧
    (∀ (reg : Registry) (parse : String → Option AvroSchema) (subject : String)
       (version : Nat) (ss : List String), reg.subjects = .ok ss → subject ∈ ss →
       reg.versions subject = .badBody →
       _get_schema_by_id reg parse subject version = .error .ParsingError) ∧
    (∀ (reg : Registry) (parse : String → Option AvroSchema) (subject : String)
       (version : Nat) (ss : List String) (vs : List Nat),
       reg.subjects = .ok ss → subject ∈ ss → reg.versions subject = .ok vs →
       version ∉ vs →
       _get_schema_by_id reg parse subject version = .error .InvalidVersion) ∧
    (∀ (reg : Registry) (parse : String → Option AvroSchema) (subject : String)
       (version : Nat) (ss : List String) (vs : List Nat),
       reg.subjects = .ok ss → subject ∈ ss → reg.versions subject = .ok vs →
       version ∈ vs → reg.schemaBody subject version = .transport →
       _get_schema_by_id reg parse subject version = .error .ConnectionError) ∧
    (∀ (reg : Registry) (parse : String → Option AvroSchema) (subject : String)
       (version : Nat) (ss : List String) (vs : List Nat),
       reg.subjects = .ok ss → subject ∈ ss → reg.versions subject = .ok vs →
       version ∈ vs → reg.schemaBody subject version = .badBody →
       _get_schema_by_id reg parse subject version = .error .ParsingError) ∧
    (∀ (reg : Registry) (parse : String → Option AvroSchema) (subject : String)
       (version : Nat) (ss : List String) (vs : List Nat),
       reg.subjects = .ok ss → subject ∈ ss → reg.versions subject = .ok vs →
       version ∈ vs →
       reg.schemaBody subject version = .ok { schemaField := none } →
       _get_schema_by_id reg parse subject version = .error .ParsingError) ∧
    (∀ (reg : Registry) (parse : String → Option AvroSchema) (subject : String)
       (version : Nat) (ss : List String) (vs : List Nat) (str : String),
       reg.subjects = .ok ss → subject ∈ ss → reg.versions subject = .ok vs →
       version ∈ vs →
       reg.schemaBody subject version = .ok { schemaField := some str } →
       parse str = none →
       _get_schema_by_id reg parse subject version = .error .InvalidSchema) ∧
    (∀ (reg : Registry) (parse : String → Option AvroSchema) (subject : String)
       (version : Nat) (ss : List String) (vs : List Nat) (str : String)
       (schema : AvroSchema),
       reg.subjects = .ok ss → subject ∈ ss → reg.versions subject = .ok vs →
       version ∈ vs →
       reg.schemaBody subject version = .ok { schemaField := some str } →
       parse str = some schema →
       _get_schema_by_id reg parse subject version = .ok schema) := by
  refine ⟨?_, ?_, ?_, ?_, ?_, ?_, ?_, ?_, ?_, ?_, ?_⟩
  · intro reg parse subject version h
    simp [_get_schema_by_id, get_versions, get_subjects, h]
  · intro reg parse subject version h
    simp [_get_schema_by_id, get_versions, get_subjects, h]
  · intro reg parse subject version ss h hmem
    simp [_get_schema_by_id, get_versions, get_subjects, h, hmem]
  · intro reg parse subject version ss h hmem hv
    simp [_get_schema_by_id, get_versions, get_subjects, h, hmem, hv]
  · intro reg parse subject version ss h hmem hv
    simp [_get_schema_by_id, get_versions, get_subjects, h, hmem, hv]
  · intro reg parse subject version ss vs h hmem hv hvmem
    simp [_get_schema_by_id, get_versions, get_subjects, h, hmem, hv, hvmem]
  · intro reg parse subject version ss vs h hmem hv hvmem hb
    simp [_get_schema_by_id, get_versions, get_subjects, h, hmem, hv, hvmem, hb]
  · intro reg parse subject version ss vs h hmem hv hvmem hb
    simp [_get_schema_by_id, get_versions, get_subjects, h, hmem, hv, hvmem, hb]
  · intro reg parse subject version ss vs h hmem hv hvmem hb
    simp [_get_schema_by_id, get_versions, get_subjects, h, hmem, hv, hvmem, hb]
  · intro reg parse subject version ss vs str h hmem hv hvmem hb hp
    simp [_get_schema_by_id, get_versions, get_subjects, h, hmem, hv, hvmem, hb,
      hp]
  · intro reg parse subject version ss vs str schema h hmem hv hvmem hb hp
    simp [_get_schema_by_id, get_versions, get_subjects, h, hmem, hv, hvmem, hb,
      hp]

/-- C7 (witness): the validation order on a family of concrete
registries, one per failure point, for subject "s" and version 1. -/
theorem c7_witness :
    _get_schema_by_id regT parse0 "s" 1 = .error .ConnectionError ∧
    _get_schema_by_id regB parse0 "s" 1 = .error .ParsingError ∧
    _get_schema_by_id reg4 parse0 "absent" 1 = .error .InvalidSubject ∧
    _get_schema_by_id reg4 parse0 "s" 1 = .error .ConnectionError ∧
    _get_schema_by_id reg5 parse0 "s" 1 = .error .ParsingError ∧
    _get_schema_by_id reg6 parse0 "s" 1 = .error .InvalidVersion ∧
    _get_schema_by_id reg7 parse0 "s" 1 = .error .ConnectionError ∧
    _get_schema_by_id reg8 parse0 "s" 1 = .error .ParsingError ∧
    _get_schema_by_id reg9 parse0 "s" 1 = .error .ParsingError ∧
    _get_schema_by_id reg10 parseNone "s" 1 = .error .InvalidSchema ∧
    _get_schema_by_id reg10 parse0 "s" 1 = .ok { raw := "x" } :=
  ⟨c7_registry_validation.1 regT parse0 "s" 1 rfl,
    c7_registry_validation.2.1 regB parse0 "s" 1 rfl,
    c7_registry_validation.2.2.1 reg4 parse0 "absent" 1 ["s"] rfl (by decide),
    c7_registry_validation.2.2.2.1 reg4 parse0 "s" 1 ["s"] rfl (by decide) rfl,
    c7_registry_validation.2.2.2.2.1 reg5 parse0 "s" 1 ["s"] rfl (by decide) rfl,
    c7_registry_validation.2.2.2.2.2.1 reg6 parse0 "s" 1 ["s"] [] rfl (by decide)
      rfl (by decide),
    c7_registry_validation.2.2.2.2.2.2.1 reg7 parse0 "s" 1 ["s"] [1] rfl
      (by decide) rfl (by decide) rfl,
    c7_registry_validation.2.2.2.2.2.2.2.1 reg8 parse0 "s" 1 ["s"] [1] rfl
      (by decide) rfl (by decide) rfl,
    c7_registry_validation.2.2.2.2.2.2.2.2.1 reg9 parse0 "s" 1 ["s"] [1] rfl
      (by decide) rfl (by decide) rfl,
    c7_registry_validation.2.2.2.2.2.2.2.2.2.1 reg10 parseNone "s" 1 ["s"] [1]
      "x" rfl (by decide) rfl (by decide) rfl rfl,
    c7_registry_validation.2.2.2.2.2.2.2.2.2.2 reg10 parse0 "s" 1 ["s"] [1] "x"
      { raw := "x" } rfl (by decide) rfl (by decide) rfl rfl⟩

/- ===================== C8 ===================== -/

/-- Enrichment of a detection panics when psf_flux is absent. -/
theorem DiaSource.add_mag_data_none_of_no_flux {p : DiaSource}
    (h : p.psf_flux = none) : p.add_mag_data = none := by
  rcases he : p.psf_flux_err with _ | v <;> simp [DiaSource.add_mag_data, h, he]

/-- Enrichment of a detection panics when psf_flux_err is absent. -/
theorem DiaSource.add_mag_data_none_of_no_flux_err {p : DiaSource}
    (h : p.psf_flux_err = none) : p.add_mag_data = none := by
  rcases hf : p.psf_flux with _ | v <;> simp [DiaSource.add_mag_data, h, hf]

/-- Enrichment of a forced source panics when psf_flux is absent. -/
theorem DiaForcedSource.add_mag_data_none_of_no_forced_flux {p : DiaForcedSource}
    (h : p.psf_flux = none) : p.add_mag_data = none := by
  rcases he : p.psf_flux_err with _ | v <;>
    simp [DiaForcedSource.add_mag_data, h, he]

/-- Enrichment of a forced source panics when psf_flux_err is absent. -/
theorem DiaForcedSource.add_mag_data_none_of_no_forced_flux_err
    {p : DiaForcedSource} (h : p.psf_flux_err = none) : p.add_mag_data = none := by
  rcases hf : p.psf_flux with _ | v <;>
    simp [DiaForcedSource.add_mag_data, h, hf]

/-- C8 (confirmed): process_alert is not total over decoded alerts
with optional fields absent — it panics (modelled as Option.none,
rather than returning an error value) whenever the current candidate's
object_id is absent; whenever psf_flux or psf_flux_err is absent on
the candidate; whenever any of the three cutout buffers is absent
(once the phase-1 insert succeeds); and whenever psf_flux or
psf_flux_err is absent on any previous detection or forced source
being enriched in phase 3 — even though the data model declares all
these fields optional. -/
theorem c8_panics_on_absent_fields :
    (∀ (xmatch : ℚ → ℚ → XMatchResult) (now : ℚ) (a : LsstAlert) (s : DbState),
       a.candidate.object_id = none →
       process_alert xmatch now a s = none) ∧
    (∀ (xmatch : ℚ → ℚ → XMatchResult) (now : ℚ) (a : LsstAlert) (s : DbState),
       a.candidate.psf_flux = none →
       process_alert xmatch now a s = none) ∧
    (∀ (xmatch : ℚ → ℚ → XMatchResult) (now : ℚ) (a : LsstAlert) (s : DbState),
       a.candidate.psf_flux_err = none →
       process_alert xmatch now a s = none) ∧
    (∀ (xmatch : ℚ → ℚ → XMatchResult) (now : ℚ) (a : LsstAlert) (s : DbState)
       (oid : Int) (cand : DiaSource),
       a.candidate.object_id = some oid →
       a.candidate.add_mag_data = some cand →
       lookupKey a.candid s.alerts = none →
       a.cutout_science = none →
       process_alert xmatch now a s = none) ∧
    (∀ (xmatch : ℚ → ℚ → XMatchResult) (now : ℚ) (a : LsstAlert) (s : DbState)
       (oid : Int) (cand : DiaSource) (cs : List (Fin 256)),
       a.candidate.object_id = some oid →
       a.candidate.add_mag_data = some cand →
       lookupKey a.candid s.alerts = none →
       a.cutout_science = some cs →
       a.cutout_template = none →
       process_alert xmatch now a s = none) ∧
    (∀ (xmatch : ℚ → ℚ → XMatchResult) (now : ℚ) (a : LsstAlert) (s : DbState)
       (oid : Int) (cand : DiaSource) (cs ct : List (Fin 256)),
       a.candidate.object_id = some oid →
       a.candidate.add_mag_data = some cand →
       lookupKey a.candid s.alerts = none →
       a.cutout_science = some cs →
       a.cutout_template = some ct →
       a.cutout_difference = none →
       process_alert xmatch now a s = none) ∧
    (∀ (xmatch : ℚ → ℚ → XMatchResult) (now : ℚ) (a : LsstAlert) (s : DbState)
       (oid : Int) (cand : DiaSource) (cs ct cd : List (Fin 256))
       (l : List DiaSource) (p : DiaSource),
       a.candidate.object_id = some oid →
       a.candidate.add_mag_data = some cand →
       lookupKey a.candid s.alerts = none →
       a.cutout_science = some cs →
       a.cutout_template = some ct →
       a.cutout_difference = some cd →
       lookupKey a.candid s.cutouts = none →
       a.prv_candidates = some l →
       p ∈ l →
       p.psf_flux = none →
       process_alert xmatch now a s = none) ∧
    (∀ (xmatch : ℚ → ℚ → XMatchResult) (now : ℚ) (a : LsstAlert) (s : DbState)
       (oid : Int) (cand : DiaSource) (cs ct cd : List (Fin 256))
       (prv : List DiaSource) (lf : List DiaForcedSource) (q : DiaForcedSource),
       a.candidate.object_id = some oid →
       a.candidate.add_mag_data = some cand →
       lookupKey a.candid s.alerts = none →
       a.cutout_science = some cs →
       a.cutout_template = some ct →
       a.cutout_difference = some cd →
       lookupKey a.candid s.cutouts = none →
       mapOption DiaSource.add_mag_data (a.prv_candidates.getD []) = some prv →
       a.fp_hists = some lf →
       q ∈ lf →
       q.psf_flux = none →
       process_alert xmatch now a s = none) ∧
    (∀ (xmatch : ℚ → ℚ → XMatchResult) (now : ℚ) (a : LsstAlert) (s : DbState)
       (oid : Int) (cand : DiaSource) (cs ct cd : List (Fin 256))
       (l : List DiaSource) (p : DiaSource),
       a.candidate.object_id = some oid →
       a.candidate.add_mag_data = some cand →
       lookupKey a.candid s.alerts = none →
       a.cutout_science = some cs →
       a.cutout_template = some ct →
       a.cutout_difference = some cd →
       lookupKey a.candid s.cutouts = none →
       a.prv_candidates = some l →
       p ∈ l →
       p.psf_flux_err = none →
       process_alert xmatch now a s = none) ∧
    (∀ (xmatch : ℚ → ℚ → XMatchResult) (now : ℚ) (a : LsstAlert) (s : DbState)
       (oid : Int) (cand : DiaSource) (cs ct cd : List (Fin 256))
       (prv : List DiaSource) (lf : List DiaForcedSource) (q : DiaForcedSource),
       a.candidate.object_id = some oid →
       a.candidate.add_mag_data = some cand →
       lookupKey a.candid s.alerts = none →
       a.cutout_science = some cs →
       a.cutout_template = some ct →
       a.cutout_difference = some cd →
       lookupKey a.candid s.cutouts = none →
       mapOption DiaSource.add_mag_data (a.prv_candidates.getD []) = some prv →
       a.fp_hists = some lf →
       q ∈ lf →
       q.psf_flux_err = none →
       process_alert xmatch now a s = none) := by
  refine ⟨?_, ?_, ?_, ?_, ?_, ?_, ?_, ?_, ?_, ?_⟩
  · intro xmatch now a s h
    simp [process_alert, h]
  · intro xmatch now a s h
    rcases hoid : a.candidate.object_id with _ | oid
    · simp [process_alert, hoid]
    · simp [process_alert, hoid, DiaSource.add_mag_data_none_of_no_flux h]
  · intro xmatch now a s h
    rcases hoid : a.candidate.object_id with _ | oid
    · simp [process_alert, hoid]
    · simp [process_alert, hoid, DiaSource.add_mag_data_none_of_no_flux_err h]
  · intro xmatch now a s oid cand hoid hcand hal hcs
    simp [process_alert, hoid, hcand, insertDoc_lookup_none hal, hcs]
  · intro xmatch now a s oid cand cs hoid hcand hal hcs hct
    simp [process_alert, hoid, hcand, insertDoc_lookup_none hal, hcs, hct]
  · intro xmatch now a s oid cand cs ct hoid hcand hal hcs hct hcd
    simp [process_alert, hoid, hcand, insertDoc_lookup_none hal, hcs, hct, hcd]
  · intro xmatch now a s oid cand cs ct cd l p hoid hcand hal hcs hct hcd hcut
      hl hp hpf
    simp [process_alert, hoid, hcand, insertDoc_lookup_none hal, hcs, hct, hcd,
      insertDoc_lookup_none hcut, hl,
      mapOption_eq_none hp (DiaSource.add_mag_data_none_of_no_flux hpf)]
  · intro xmatch now a s oid cand cs ct cd prv lf q hoid hcand hal hcs hct hcd
      hcut hprv hlf hq hqf
    simp [process_alert, hoid, hcand, insertDoc_lookup_none hal, hcs, hct, hcd,
      insertDoc_lookup_none hcut, hprv, hlf,
      mapOption_eq_none hq (DiaForcedSource.add_mag_data_none_of_no_forced_flux hqf)]
  · intro xmatch now a s oid cand cs ct cd l p hoid hcand hal hcs hct hcd hcut
      hl hp hpe
    simp [process_alert, hoid, hcand, insertDoc_lookup_none hal, hcs, hct, hcd,
      insertDoc_lookup_none hcut, hl,
      mapOption_eq_none hp (DiaSource.add_mag_data_none_of_no_flux_err hpe)]
  · intro xmatch now a s oid cand cs ct cd prv lf q hoid hcand hal hcs hct hcd
      hcut hprv hlf hq hqe
    simp [process_alert, hoid, hcand, insertDoc_lookup_none hal, hcs, hct, hcd,
      insertDoc_lookup_none hcut, hprv, hlf,
      mapOption_eq_none hq
        (DiaForcedSource.add_mag_data_none_of_no_forced_flux_err hqe)]

/-- C8 (witness): each panic case on a concrete alert variant over the
empty store. -/
theorem c8_witness :
    process_alert xm0 now0 alertNoOid DbState.empty = none ∧
    process_alert xm0 now0 alertNoPsf DbState.empty = none ∧
    process_alert xm0 now0 alertNoPsfErr DbState.empty = none ∧
    process_alert xm0 now0 alertNoCutSci DbState.empty = none ∧
    process_alert xm0 now0 alertNoCutTmp DbState.empty = none ∧
    process_alert xm0 now0 alertNoCutDif DbState.empty = none ∧
    process_alert xm0 now0 alertPrvNoPsf DbState.empty = none ∧
    process_alert xm0 now0 alertFpNoPsf DbState.empty = none ∧
    process_alert xm0 now0 alertPrvNoPsfErr DbState.empty = none ∧
    process_alert xm0 now0 alertFpNoPsfErr DbState.empty = none :=
  ⟨c8_panics_on_absent_fields.1 xm0 now0 alertNoOid DbState.empty rfl,
    c8_panics_on_absent_fields.2.1 xm0 now0 alertNoPsf DbState.empty rfl,
    c8_panics_on_absent_fields.2.2.1 xm0 now0 alertNoPsfErr DbState.empty rfl,
    c8_panics_on_absent_fields.2.2.2.1 xm0 now0 alertNoCutSci DbState.empty 7
      enrichedCand rfl rfl rfl rfl,
    c8_panics_on_absent_fields.2.2.2.2.1 xm0 now0 alertNoCutTmp DbState.empty 7
      enrichedCand [2] rfl rfl rfl rfl rfl,
    c8_panics_on_absent_fields.2.2.2.2.2.1 xm0 now0 alertNoCutDif DbState.empty
      7 enrichedCand [2] [3] rfl rfl rfl rfl rfl rfl,
    c8_panics_on_absent_fields.2.2.2.2.2.2.1 xm0 now0 alertPrvNoPsf
      DbState.empty 7 enrichedCand [2] [3] [1] [prvNoPsf] prvNoPsf rfl rfl rfl
      rfl rfl rfl rfl rfl (by simp) rfl,
    c8_panics_on_absent_fields.2.2.2.2.2.2.2.1 xm0 now0 alertFpNoPsf
      DbState.empty 7 enrichedCand [2] [3] [1] enrichedPrv [fpNoPsf] fpNoPsf
      rfl rfl rfl rfl rfl rfl rfl rfl rfl (by simp) rfl,
    c8_panics_on_absent_fields.2.2.2.2.2.2.2.2.1 xm0 now0 alertPrvNoPsfErr
      DbState.empty 7 enrichedCand [2] [3] [1] [prvNoPsfErr] prvNoPsfErr rfl
      rfl rfl rfl rfl rfl rfl rfl (by simp) rfl,
    c8_panics_on_absent_fields.2.2.2.2.2.2.2.2.2 xm0 now0 alertFpNoPsfErr
      DbState.empty 7 enrichedCand [2] [3] [1] enrichedPrv [fpNoPsfErr]
      fpNoPsfErr rfl rfl rfl rfl rfl rfl rfl rfl rfl (by simp) rfl⟩

/- ===================== C9 ===================== -/

/-- C9 (confirmed): for every input buffer shorter than the 5 header
bytes, alert_from_avro_bytes panics on the header read (the source
calls read_exact(..).unwrap(), src/alert/lsst.rs line 634) instead of
returning a decoder error, and therefore the full process_alert
pipeline on raw bytes is not total either. -/
theorem c9_short_buffer_panics :
    ∀ (dp : AvroSchema → List (Fin 256) → Except Unit LsstAlert)
      (reg : Registry) (parse : String → Option AvroSchema)
      (cache : SchemaCache) (bs : List (Fin 256)),
      bs.length < 5 →
      alert_from_avro_bytes dp reg parse cache bs = none ∧
      ∀ (xmatch : ℚ → ℚ → XMatchResult) (now : ℚ) (s : DbState),
        process_alert_bytes dp reg parse xmatch now cache s bs = none := by
  intro dp reg parse cache bs hlen
  rcases bs with _ | ⟨a, _ | ⟨b, _ | ⟨c, _ | ⟨d, _ | ⟨e, rest⟩⟩⟩⟩⟩
  · exact ⟨rfl, fun _ _ _ => rfl⟩
  · exact ⟨rfl, fun _ _ _ => rfl⟩
  · exact ⟨rfl, fun _ _ _ => rfl⟩
  · exact ⟨rfl, fun _ _ _ => rfl⟩
  · exact ⟨rfl, fun _ _ _ => rfl⟩
  · exfalso
    simp [List.length_cons] at hlen
    omega

/-- C9 (witness): the two-byte buffer [0, 1]. -/
theorem c9_witness :
    alert_from_avro_bytes dp0 reg0 parse0 [] [0, 1] = none ∧
    process_alert_bytes dp0 reg0 parse0 xm0 now0 [] DbState.empty [0, 1] =
      none :=
  ⟨(c9_short_buffer_panics dp0 reg0 parse0 [] [0, 1] (by decide)).1,
    (c9_short_buffer_panics dp0 reg0 parse0 [] [0, 1] (by decide)).2 xm0 now0
      DbState.empty⟩

/- ===================== C10 ===================== -/

/-- C10 (confirmed): the previous non-detection limits, although
decoded into the envelope's prv_nondetections field, are never written
to any collection: the whole outcome of process_alert — the returned
value and all three collections, in both the create and the merge
branch — is invariant under replacing the prv_nondetections field by
any other value, so no produced document can contain the non-detection
data. -/
theorem c10_nondetections_never_stored :
    ∀ (xmatch : ℚ → ℚ → XMatchResult) (now : ℚ) (a : LsstAlert) (s : DbState)
      (v : Option (List DiaNondetectionLimit)),
      process_alert xmatch now { a with prv_nondetections := v } s =
        process_alert xmatch now a s := by
  intro xmatch now a s v
  rfl
